import Mathlib

/-!
Verification development for the istio-sidecar-restarter program
(`src/main.go`). The Go program walks pod ownership chains and stamps a
restart annotation on the owning workload pod template. Below, the pure
helpers are translated directly; the effectful functions are translated
into explicit state passing over a cluster model that records every API
call (get/update) in a trace and advances a logical clock on each call
to the system time. The source recursion over owner references has no
depth bound, so the translation takes an explicit fuel argument; all
theorems hold for every sufficient fuel.
-/

/-- A Go `map[string]string` modelled as an association list; the first
binding of a key is its value, and setting a key replaces the first
binding in place (or appends when the key is absent), matching map
update semantics. -/
abbrev AnnMap := List (String × String)

/-- Lookup of a key in the association map (first binding wins). -/
def lookupAnn : AnnMap → String → Option String
  | [], _ => none
  | (k, v) :: rest, key => if k = key then some v else lookupAnn rest key

/-- Go map assignment `m[key] = v`: replace the first binding of `key`,
or append a fresh binding when absent. -/
def setAnn : AnnMap → String → String → AnnMap
  | [], key, v => [(key, v)]
  | (k, w) :: rest, key, v =>
    if k = key then (key, v) :: rest else (k, w) :: setAnn rest key v

/-- Left-pad a numeral below 100 to two digits, as Go time formatting does. -/
def pad2 (n : Nat) : String :=
  if n < 10 then "0" ++ toString n else toString n

/-- Gregorian date from days since the Unix epoch (the standard
era-based civil-from-days calculation), giving (year, month, day). -/
def civilFromDays (z : Nat) : Nat × Nat × Nat :=
  let zz := z + 719468
  let era := zz / 146097
  let doe := zz % 146097
  let yoe := (doe - doe / 1460 + doe / 36524 - doe / 146096) / 365
  let y := yoe + era * 400
  let doy := doe - (365 * yoe + yoe / 4 - yoe / 100)
  let mp := (5 * doy + 2) / 153
  let d := doy - (153 * mp + 2) / 5 + 1
  let m := if mp < 10 then mp + 3 else mp - 9
  (if m ≤ 2 then y + 1 else y, m, d)

/-- Go `t.Format(time.RFC3339)` for a UTC instant, on seconds since the
Unix epoch: `YYYY-MM-DDTHH:MM:SSZ`. -/
def formatRFC3339 (t : Nat) : String :=
  let days := t / 86400
  let rem := t % 86400
  let ymd := civilFromDays days
  toString ymd.1 ++ "-" ++ pad2 ymd.2.1 ++ "-" ++ pad2 ymd.2.2 ++ "T" ++
    pad2 (rem / 3600) ++ ":" ++ pad2 (rem % 3600 / 60) ++ ":" ++ pad2 (rem % 60) ++ "Z"

/-- The reserved restart-trigger annotation key. -/
def restartKey : String := "kubectl.kubernetes.io/restartedAt"

/-- Translation of `addRestartAnnotation` (src/main.go lines 130-136): a
nil map is replaced by a fresh empty map, then the reserved key is set
to the RFC 3339 rendering of the current time. The `time.Now()` value is
the explicit parameter `now`. -/
def addRestartAnnotation (anns : Option AnnMap) (now : Nat) : AnnMap :=
  let m := anns.getD []
  setAnn m restartKey (formatRFC3339 now)

theorem lookupAnn_setAnn_self (m : AnnMap) (k v : String) :
    lookupAnn (setAnn m k v) k = some v := by
  induction m with
  | nil => simp [setAnn, lookupAnn]
  | cons p rest ih =>
    obtain ⟨a, b⟩ := p
    by_cases h : a = k
    · simp [setAnn, lookupAnn, h]
    · simp [setAnn, lookupAnn, h, ih]

theorem lookupAnn_setAnn_ne (m : AnnMap) (k v k' : String) (h : k' ≠ k) :
    lookupAnn (setAnn m k v) k' = lookupAnn m k' := by
  have hk : ¬k = k' := fun hh => h hh.symm
  induction m with
  | nil => simp [setAnn, lookupAnn, hk]
  | cons p rest ih =>
    obtain ⟨a, b⟩ := p
    by_cases ha : a = k
    · subst ha
      simp [setAnn, lookupAnn, hk]
    · simp [setAnn, lookupAnn, ha, ih]

theorem setAnn_setAnn_same (m : AnnMap) (k v : String) :
    setAnn (setAnn m k v) k v = setAnn m k v := by
  induction m with
  | nil => simp [setAnn]
  | cons p rest ih =>
    obtain ⟨a, b⟩ := p
    by_cases h : a = k
    · simp [setAnn, h]
    · simp [setAnn, h, ih]

/-- C2: for every annotation mapping (including the nil case) and every
timestamp, the mutator maps the reserved key to the RFC 3339 rendering
of the timestamp, leaves the binding of every other key exactly as in
the input, and on a nil input builds the singleton map. -/
theorem claim_C2_mutator_preserves (anns : Option AnnMap) (now : Nat) :
    lookupAnn ( addRestartAnnotation anns now) restartKey = some (formatRFC3339 now)
    ∧ (∀ k, k ≠ restartKey →
        lookupAnn ( addRestartAnnotation anns now) k = lookupAnn (anns.getD []) k)
    ∧ addRestartAnnotation none now = [(restartKey, formatRFC3339 now)] := by
  refine ⟨?_, ?_, ?_⟩
  · exact lookupAnn_setAnn_self _ _ _
  · intro k hk
    exact lookupAnn_setAnn_ne _ _ _ _ hk
  · rfl

/-- Witness for C2 at a concrete one-entry map and timestamp 0. -/
theorem claim_C2_witness :
    lookupAnn ( addRestartAnnotation (some [("team", "x")]) 0) "team" = some "x" := by
  have h := (claim_C2_mutator_preserves (some [("team", "x")]) 0).2.1 "team" (by decide)
  simpa using h

/-- C6: the mutator is idempotent under a fixed clock: applying it twice
with the same timestamp gives exactly the mapping of a single
application. -/
theorem claim_C6_mutator_idempotent (anns : Option AnnMap) (now : Nat) :
    addRestartAnnotation (some ( addRestartAnnotation anns now)) now =
      addRestartAnnotation anns now := by
  unfold addRestartAnnotation
  simp [setAnn_setAnn_same]

/-- An owner reference: the (kind, name) of a direct controller. -/
structure OwnerReference where
  kind : String
  name : String
deriving DecidableEq

/-- An init container; only the name is consulted by the program. -/
structure Container where
  name : String
deriving DecidableEq

/-- A pod: namespace, name, init-container list, owner-reference list. -/
structure Pod where
  ns : String
  name : String
  initContainers : List Container
  ownerReferences : List OwnerReference
deriving DecidableEq

/-- A ReplicaSet: fetched only to read its own owner references. -/
structure ReplicaSet where
  ns : String
  name : String
  ownerReferences : List OwnerReference
deriving DecidableEq

/-- A terminal workload (Deployment, DaemonSet or StatefulSet): only its
pod-template annotation map is read and written; `none` models a nil
Go map on the template. -/
structure WorkloadObj where
  ns : String
  name : String
  templateAnnotations : Option AnnMap
deriving DecidableEq

/-- The cluster contents visible to the program, one collection per
object kind, plus the namespace names the cluster-scoped list returns. -/
structure Cluster where
  namespaceNames : List String
  pods : List Pod
  replicaSets : List ReplicaSet
  deployments : List WorkloadObj
  daemonSets : List WorkloadObj
  statefulSets : List WorkloadObj
deriving DecidableEq

/-- Translation of `hasIstioSidecar` (src/main.go lines 160-169): the
loop over init containers returns true on the first container named
istio-init or istio-validation. -/
def hasIstioSidecar (pod : Pod) : Bool :=
  pod.initContainers.any fun c => c.name == "istio-init" || c.name == "istio-validation"

/-- The namespace-skipping loop body of `getNamespaces` (src/main.go
lines 147-153): system namespaces are skipped, all others kept in order. -/
def collectNamespaces : List String → List String
  | [] => []
  | n :: rest =>
    if n = "kube-system" ∨ n = "kube-public" ∨ n = "kube-node-lease" then
      collectNamespaces rest
    else n :: collectNamespaces rest

/-- Translation of `getNamespaces` (src/main.go lines 139-157): in
all-namespaces mode, list the cluster namespaces and drop the fixed
skip-list; otherwise return the single flag-provided namespace. -/
def getNamespaces (c : Cluster) (namespaceFlag : String) (allNamespaces : Bool) : List String :=
  if allNamespaces then collectNamespaces c.namespaceNames
  else [namespaceFlag]

/-- Outcome of program startup: fatal configuration error before any
cluster call, or a run over the namespace list. -/
inductive MainOutcome where
  | configError : MainOutcome
  | ran : List String → MainOutcome
deriving DecidableEq

/-- Translation of the startup of `main` (src/main.go lines 41-76): the
flag validation `*namespace == "" && !*allNamespaces` aborts fatally
before anything contacts the cluster; otherwise the namespace list is
determined by `getNamespaces`. -/
def mainStartup (c : Cluster) (namespaceFlag : String) (allNamespaces : Bool) : MainOutcome :=
  if namespaceFlag == "" && !allNamespaces then MainOutcome.configError
  else MainOutcome.ran (getNamespaces c namespaceFlag allNamespaces)

/-- The spec phrase "exactly one of --namespace and --all-namespaces is
selected", written from the spec words for the counterexample to C8. -/
def exactlyOneModeSelected (namespaceFlag : String) (allNamespaces : Bool) : Bool :=
  (namespaceFlag != "" && !allNamespaces) || (namespaceFlag == "" && allNamespaces)

/-- C5: the marker predicate holds for every pod some init container of
which is named istio-init or istio-validation, fails for a pod whose
init containers are exactly one container named sleep, and fails for a
pod with no init containers. -/
theorem claim_C5_sidecar_marker :
    (∀ pod : Pod,
      (∃ c, c ∈ pod.initContainers ∧ (c.name = "istio-init" ∨ c.name = "istio-validation")) →
        hasIstioSidecar pod = true)
    ∧ (∀ pod : Pod, pod.initContainers.map Container.name = ["sleep"] →
        hasIstioSidecar pod = false)
    ∧ (∀ pod : Pod, pod.initContainers = [] → hasIstioSidecar pod = false) := by
  refine ⟨?_, ?_, ?_⟩
  · intro pod h
    obtain ⟨c, hc, hname⟩ := h
    simp only [hasIstioSidecar, List.any_eq_true]
    exact ⟨c, hc, by rcases hname with h1 | h1 <;> simp [h1]⟩
  · intro pod h
    match hm : pod.initContainers with
    | [] => simp [hm] at h
    | c :: rest =>
      rw [hm] at h
      simp only [List.map_cons, List.cons.injEq] at h
      obtain ⟨hc, hrest⟩ := h
      have hrest' : rest = [] := by
        cases rest with
        | nil => rfl
        | cons d ds => simp at hrest
      subst hrest'
      simp [hasIstioSidecar, hm, hc]
  · intro pod h
    simp [hasIstioSidecar, h]

/-- Witness for C5 at four concrete pods. -/
theorem claim_C5_witness :
    hasIstioSidecar ⟨"ns1", "a", [⟨"istio-init"⟩], []⟩ = true
    ∧ hasIstioSidecar ⟨"ns1", "b", [⟨"istio-validation"⟩], []⟩ = true
    ∧ hasIstioSidecar ⟨"ns1", "c", [⟨"sleep"⟩], []⟩ = false
    ∧ hasIstioSidecar ⟨"ns1", "d", [], []⟩ = false := by
  refine ⟨?_, ?_, ?_, ?_⟩
  · exact claim_C5_sidecar_marker.1 _ ⟨⟨"istio-init"⟩, by simp, Or.inl rfl⟩
  · exact claim_C5_sidecar_marker.1 _ ⟨⟨"istio-validation"⟩, by simp, Or.inr rfl⟩
  · exact claim_C5_sidecar_marker.2.1 _ (by simp)
  · exact claim_C5_sidecar_marker.2.2 _ rfl

/-- C7: in all-namespaces mode, a namespace is returned exactly when the
cluster has it and it is not one of the three platform-reserved
namespaces of the fixed skip-list; in particular no skip-list namespace
is ever processed. -/
theorem claim_C7_namespace_skip_list (c : Cluster) (namespaceFlag n : String) :
    n ∈ getNamespaces c namespaceFlag true ↔
      n ∈ c.namespaceNames ∧
        (n ≠ "kube-system" ∧ n ≠ "kube-public" ∧ n ≠ "kube-node-lease") := by
  show n ∈ collectNamespaces c.namespaceNames ↔ _
  induction c.namespaceNames with
  | nil => simp [collectNamespaces]
  | cons m rest ih =>
    by_cases h : m = "kube-system" ∨ m = "kube-public" ∨ m = "kube-node-lease"
    · rw [collectNamespaces, if_pos h, ih]
      constructor
      · rintro ⟨h1, h2⟩
        exact ⟨List.mem_cons_of_mem _ h1, h2⟩
      · rintro ⟨h1, h2⟩
        rcases List.mem_cons.mp h1 with rfl | h1
        · rcases h with h | h | h <;> simp [h] at h2
        · exact ⟨h1, h2⟩
    · rw [collectNamespaces, if_neg h]
      push_neg at h
      obtain ⟨hs, hp, hl⟩ := h
      constructor
      · intro hmem
        rcases List.mem_cons.mp hmem with rfl | hmem
        · exact ⟨List.mem_cons_self _ _, hs, hp, hl⟩
        · obtain ⟨h1, h2⟩ := ih.mp hmem
          exact ⟨List.mem_cons_of_mem _ h1, h2⟩
      · rintro ⟨h1, h2⟩
        rcases List.mem_cons.mp h1 with rfl | h1
        · exact List.mem_cons_self _ _
        · exact List.mem_cons_of_mem _ (ih.mpr ⟨h1, h2⟩)

/-- Counterexample to C8 as stated: with --namespace "foo" and
--all-namespaces both given, not exactly one mode is selected, yet
startup does not abort with the fatal configuration error - it proceeds
to run in all-namespaces mode. -/
theorem claim_C8_counterexample :
    exactlyOneModeSelected "foo" true = false
    ∧ mainStartup ⟨["ns1"], [], [], [], [], []⟩ "foo" true ≠ MainOutcome.configError := by
  decide

/-- C8 amended: startup aborts with the fatal configuration error, before
any cluster call, exactly when neither mode is selected (empty
--namespace and --all-namespaces unset); selecting both modes is not
rejected. -/
theorem claim_C8_amended (c : Cluster) (namespaceFlag : String) (allNamespaces : Bool) :
    mainStartup c namespaceFlag allNamespaces = MainOutcome.configError ↔
      (namespaceFlag = "" ∧ allNamespaces = false) := by
  unfold mainStartup
  by_cases h : namespaceFlag == "" && !allNamespaces
  · rw [if_pos h]
    simp only [Bool.and_eq_true, beq_iff_eq, Bool.not_eq_true'] at h
    simp [h]
  · rw [if_neg h]
    simp only [Bool.and_eq_true, beq_iff_eq, Bool.not_eq_true'] at h
    constructor
    · intro hc
      exact absurd hc (by simp)
    · rintro ⟨h1, h2⟩
      exact absurd ⟨h1, h2⟩ h

/-- One cluster API call made by the program, as recorded in the model
trace: a ReplicaSet fetch, a workload fetch, or a workload update
carrying the new pod-template annotations and the `time.Now()` instant
used for the restart marker. -/
inductive ApiCall where
  | getReplicaSet (ns name : String) : ApiCall
  | getWorkload (kind ns name : String) : ApiCall
  | updateWorkload (kind ns name : String) (anns : AnnMap) (t : Nat) : ApiCall
deriving DecidableEq

/-- Execution state threaded through the effectful functions: the
cluster contents, a logical clock that advances on every `time.Now()`
call (sequential calls observe strictly increasing instants), and the
trace of API calls made so far. -/
structure SimState where
  cluster : Cluster
  clock : Nat
  trace : List ApiCall
deriving DecidableEq

/-- Record one API call at the end of the trace. -/
def pushCall (s : SimState) (c : ApiCall) : SimState :=
  { s with trace := s.trace ++ [c] }

/-- The apiserver answer to `ReplicaSets(namespace).Get(name)`. -/
def findReplicaSet (c : Cluster) (ns name : String) : Option ReplicaSet :=
  c.replicaSets.find? fun r => r.ns == ns && r.name == name

/-- The collection holding workloads of a given kind. -/
def workloadsOfKind (c : Cluster) (kind : String) : List WorkloadObj :=
  if kind = "Deployment" then c.deployments
  else if kind = "DaemonSet" then c.daemonSets
  else if kind = "StatefulSet" then c.statefulSets
  else []

/-- The apiserver answer to a typed `Get` of a workload by
(namespace, name). -/
def findWorkload (c : Cluster) (kind ns name : String) : Option WorkloadObj :=
  (workloadsOfKind c kind).find? fun w => w.ns == ns && w.name == name

/-- Persist new pod-template annotations on the matching workload of a
collection, leaving every other object untouched. -/
def setAnnsIn (l : List WorkloadObj) (ns name : String) (anns : AnnMap) : List WorkloadObj :=
  l.map fun w =>
    if w.ns == ns && w.name == name then { w with templateAnnotations := some anns } else w

/-- The apiserver effect of a typed `Update` of a workload. -/
def updateWorkloadColl (c : Cluster) (kind ns name : String) (anns : AnnMap) : Cluster :=
  if kind = "Deployment" then { c with deployments := setAnnsIn c.deployments ns name anns }
  else if kind = "DaemonSet" then { c with daemonSets := setAnnsIn c.daemonSets ns name anns }
  else if kind = "StatefulSet" then { c with statefulSets := setAnnsIn c.statefulSets ns name anns }
  else c

/-- Translation of `restartWorkload` (src/main.go lines 241-290): fetch
the workload of the given kind by (namespace, name); on failure return
the error; otherwise apply `addRestartAnnotation` to the pod-template
annotations and issue one update call. The three kind branches of the
source are textually identical up to the typed client used, which the
kind-indexed collection captures. -/
def restartWorkload (ns name kind : String) (s : SimState) : Except String Unit × SimState :=
  if kind = "Deployment" ∨ kind = "DaemonSet" ∨ kind = "StatefulSet" then
    let s1 := pushCall s (ApiCall.getWorkload kind ns name)
    match findWorkload s.cluster kind ns name with
    | none => (Except.error ("failed to get " ++ kind ++ " " ++ name), s1)
    | some w =>
      let t := s1.clock
      let newAnns := addRestartAnnotation w.templateAnnotations t
      (Except.ok (),
        { cluster := updateWorkloadColl s1.cluster kind ns name newAnns
          clock := s1.clock + 1
          trace := s1.trace ++ [ApiCall.updateWorkload kind ns name newAnns t] })
  else (Except.error ("unsupported workload kind: " ++ kind), s)

/-- Translation of `traverseOwners` (src/main.go lines 209-238), with
explicit fuel standing for the unbounded source recursion: a ReplicaSet
owner is fetched (error on failure) and its first owner reference is
followed when present, success with no further action when absent; a
Deployment, DaemonSet or StatefulSet owner goes to `restartWorkload`;
any other kind is an immediate success with no API call. -/
def traverseOwners : Nat → String → OwnerReference → SimState → Except String Unit × SimState
  | 0, _, _, s => (Except.error "owner chain recursion limit reached", s)
  | fuel + 1, ns, ref, s =>
    if ref.kind = "ReplicaSet" then
      let s1 := pushCall s (ApiCall.getReplicaSet ns ref.name)
      match findReplicaSet s.cluster ns ref.name with
      | none => (Except.error ("failed to get ReplicaSet " ++ ref.name), s1)
      | some rs =>
        match rs.ownerReferences with
        | [] => (Except.ok (), s1)
        | o :: _ => traverseOwners fuel ns o s1
    else if ref.kind = "Deployment" then restartWorkload ns ref.name "Deployment" s
    else if ref.kind = "DaemonSet" then restartWorkload ns ref.name "DaemonSet" s
    else if ref.kind = "StatefulSet" then restartWorkload ns ref.name "StatefulSet" s
    else (Except.ok (), s)

/-- Translation of `processPod` (src/main.go lines 198-207): a pod with
no owner references is skipped successfully; otherwise the resolver is
invoked on the first owner reference with the pod namespace. -/
def processPod (fuel : Nat) (pod : Pod) (s : SimState) : Except String Unit × SimState :=
  match pod.ownerReferences with
  | [] => (Except.ok (), s)
  | o :: _ => traverseOwners fuel pod.ns o s

/-- The pod loop of `processPodsInNamespace` (src/main.go lines
178-189): pods without the sidecar marker are skipped; a successfully
processed pod increments the counter; a failed pod is logged and the
loop continues. -/
def processPodLoop (fuel : Nat) : List Pod → Nat → SimState → Nat × SimState
  | [], count, s => (count, s)
  | pod :: rest, count, s =>
    if hasIstioSidecar pod then
      match processPod fuel pod s with
      | (Except.ok _, s1) => processPodLoop fuel rest (count + 1) s1
      | (Except.error _, s1) => processPodLoop fuel rest count s1
    else processPodLoop fuel rest count s

/-- The apiserver answer to `Pods(namespace).List`. -/
def podsInNamespace (c : Cluster) (ns : String) : List Pod :=
  c.pods.filter fun p => p.ns == ns

/-- Translation of `processPodsInNamespace` (src/main.go lines 172-196):
list the pods of the namespace and run the pod loop, returning the
success count and the final state. -/
def processPodsInNamespace (fuel : Nat) (ns : String) (s : SimState) : Nat × SimState :=
  processPodLoop fuel (podsInNamespace s.cluster ns) 0 s

/-- Whether a trace entry is an update call. -/
def isUpdateCall : ApiCall → Bool
  | ApiCall.updateWorkload _ _ _ _ _ => true
  | _ => false

theorem restartWorkload_found (s : SimState) (ns name kind : String) (w : WorkloadObj)
    (hk : kind = "Deployment" ∨ kind = "DaemonSet" ∨ kind = "StatefulSet")
    (hw : findWorkload s.cluster kind ns name = some w) :
    restartWorkload ns name kind s =
      (Except.ok (),
        { cluster := updateWorkloadColl s.cluster kind ns name
            ( addRestartAnnotation w.templateAnnotations s.clock)
          clock := s.clock + 1
          trace := s.trace ++ [ApiCall.getWorkload kind ns name,
            ApiCall.updateWorkload kind ns name
              ( addRestartAnnotation w.templateAnnotations s.clock) s.clock] }) := by
  unfold restartWorkload
  rw [if_pos hk, hw]
  simp [pushCall]

theorem traverseOwners_rs_to_deployment (fuel : Nat) (s : SimState)
    (ns rsName dName : String) (rs : ReplicaSet) (d : WorkloadObj)
    (others : List OwnerReference)
    (hrs : findReplicaSet s.cluster ns rsName = some rs)
    (hro : rs.ownerReferences = OwnerReference.mk "Deployment" dName :: others)
    (hd : findWorkload s.cluster "Deployment" ns dName = some d) :
    traverseOwners (fuel + 2) ns (OwnerReference.mk "ReplicaSet" rsName) s =
      (Except.ok (),
        { cluster := updateWorkloadColl s.cluster "Deployment" ns dName
            ( addRestartAnnotation d.templateAnnotations s.clock)
          clock := s.clock + 1
          trace := s.trace ++ [ApiCall.getReplicaSet ns rsName,
            ApiCall.getWorkload "Deployment" ns dName,
            ApiCall.updateWorkload "Deployment" ns dName
              ( addRestartAnnotation d.templateAnnotations s.clock) s.clock] }) := by
  show traverseOwners (fuel + 1 + 1) ns (OwnerReference.mk "ReplicaSet" rsName) s = _
  rw [traverseOwners]
  simp only [hrs, hro]
  rw [if_pos trivial]
  show traverseOwners (fuel + 1) ns (OwnerReference.mk "Deployment" dName)
      (pushCall s (ApiCall.getReplicaSet ns rsName)) = _
  rw [traverseOwners]
  have hd1 : findWorkload (pushCall s (ApiCall.getReplicaSet ns rsName)).cluster
      "Deployment" ns dName = some d := hd
  rw [if_neg (by simp), if_pos rfl]
  rw [restartWorkload_found _ _ _ _ d (Or.inl rfl) hd1]
  simp [pushCall]

theorem find?_setAnnsIn (l : List WorkloadObj) (ns name : String) (a : AnnMap)
    (w : WorkloadObj)
    (h : l.find? (fun x => x.ns == ns && x.name == name) = some w) :
    (setAnnsIn l ns name a).find? (fun x => x.ns == ns && x.name == name) =
      some { w with templateAnnotations := some a } := by
  induction l with
  | nil => simp at h
  | cons x rest ih =>
    by_cases hx : (x.ns == ns && x.name == name) = true
    · simp only [List.find?, hx] at h
      injection h with h
      subst h
      simp [setAnnsIn, List.find?, hx]
    · rw [Bool.not_eq_true] at hx
      simp only [List.find?, hx] at h
      simp only [setAnnsIn, List.map_cons] at ih ⊢
      rw [if_neg (by simp [hx])]
      simp only [List.find?, hx]
      exact ih h

theorem findWorkload_updateColl_deployment (c : Cluster) (ns name : String) (a : AnnMap)
    (w : WorkloadObj)
    (h : findWorkload c "Deployment" ns name = some w) :
    findWorkload (updateWorkloadColl c "Deployment" ns name a) "Deployment" ns name =
      some { w with templateAnnotations := some a } := by
  unfold findWorkload workloadsOfKind at h
  rw [if_pos rfl] at h
  unfold findWorkload workloadsOfKind updateWorkloadColl
  rw [if_pos rfl, if_pos rfl]
  exact find?_setAnnsIn _ _ _ _ _ h

theorem findReplicaSet_updateColl (c : Cluster) (kind ns name : String) (a : AnnMap)
    (ns2 n2 : String) :
    findReplicaSet (updateWorkloadColl c kind ns name a) ns2 n2 =
      findReplicaSet c ns2 n2 := by
  unfold updateWorkloadColl findReplicaSet
  split_ifs <;> rfl

/-- C1: an owner reference of terminal kind (Deployment, DaemonSet or
StatefulSet) whose workload exists makes the resolver fetch that
workload by (namespace, name), apply the annotation mutator to its
pod-template annotations, and issue exactly one update call, to that
workload; and on the chain Pod to ReplicaSet to Deployment the resolver
makes exactly one update, to that Deployment, whose resulting
pod-template annotations hold the reserved restart key and, unchanged,
every annotation the template had before the call. -/
theorem claim_C1_resolver_single_update (fuel : Nat) (s : SimState) (ns : String) :
    (∀ (ref : OwnerReference) (w : WorkloadObj),
      (ref.kind = "Deployment" ∨ ref.kind = "DaemonSet" ∨ ref.kind = "StatefulSet") →
      findWorkload s.cluster ref.kind ns ref.name = some w →
      traverseOwners (fuel + 1) ns ref s =
        (Except.ok (),
          { cluster := updateWorkloadColl s.cluster ref.kind ns ref.name
              ( addRestartAnnotation w.templateAnnotations s.clock)
            clock := s.clock + 1
            trace := s.trace ++ [ApiCall.getWorkload ref.kind ns ref.name,
              ApiCall.updateWorkload ref.kind ns ref.name
                ( addRestartAnnotation w.templateAnnotations s.clock) s.clock] }))
    ∧ (∀ (rsName dName : String) (rs : ReplicaSet) (d : WorkloadObj)
        (others : List OwnerReference),
      findReplicaSet s.cluster ns rsName = some rs →
      rs.ownerReferences = OwnerReference.mk "Deployment" dName :: others →
      findWorkload s.cluster "Deployment" ns dName = some d →
      traverseOwners (fuel + 2) ns (OwnerReference.mk "ReplicaSet" rsName) s =
        (Except.ok (),
          { cluster := updateWorkloadColl s.cluster "Deployment" ns dName
              ( addRestartAnnotation d.templateAnnotations s.clock)
            clock := s.clock + 1
            trace := s.trace ++ [ApiCall.getReplicaSet ns rsName,
              ApiCall.getWorkload "Deployment" ns dName,
              ApiCall.updateWorkload "Deployment" ns dName
                ( addRestartAnnotation d.templateAnnotations s.clock) s.clock] })
      ∧ lookupAnn ( addRestartAnnotation d.templateAnnotations s.clock) restartKey =
          some (formatRFC3339 s.clock)
      ∧ (∀ k, k ≠ restartKey →
          lookupAnn ( addRestartAnnotation d.templateAnnotations s.clock) k =
            lookupAnn (d.templateAnnotations.getD []) k)) := by
  constructor
  · intro ref w hk hw
    obtain ⟨rk, rn⟩ := ref
    simp only at hk hw
    rcases hk with hk | hk | hk <;> subst hk
    · rw [traverseOwners, if_neg (by simp), if_pos rfl]
      exact restartWorkload_found _ _ _ _ w (Or.inl rfl) hw
    · rw [traverseOwners, if_neg (by simp), if_neg (by simp), if_pos rfl]
      exact restartWorkload_found _ _ _ _ w (Or.inr (Or.inl rfl)) hw
    · rw [traverseOwners, if_neg (by simp), if_neg (by simp), if_neg (by simp), if_pos rfl]
      exact restartWorkload_found _ _ _ _ w (Or.inr (Or.inr rfl)) hw
  · intro rsName dName rs d others hrs hro hd
    refine ⟨traverseOwners_rs_to_deployment fuel s ns rsName dName rs d others hrs hro hd,
      lookupAnn_setAnn_self _ _ _, ?_⟩
    intro k hk
    exact lookupAnn_setAnn_ne _ _ _ _ hk

/-- Witness for C1 on a concrete cluster: namespace ns1, ReplicaSet
web-rs owned by Deployment web whose template has one annotation. -/
theorem claim_C1_witness :
    (traverseOwners 2 "ns1" (OwnerReference.mk "ReplicaSet" "web-rs")
      ⟨⟨["ns1"], [], [⟨"ns1", "web-rs", [⟨"Deployment", "web"⟩]⟩],
        [⟨"ns1", "web", some [("app", "web")]⟩], [], []⟩, 0, []⟩).1 = Except.ok ()
    ∧ (traverseOwners 2 "ns1" (OwnerReference.mk "ReplicaSet" "web-rs")
      ⟨⟨["ns1"], [], [⟨"ns1", "web-rs", [⟨"Deployment", "web"⟩]⟩],
        [⟨"ns1", "web", some [("app", "web")]⟩], [], []⟩, 0, []⟩).2 =
      ⟨⟨["ns1"], [], [⟨"ns1", "web-rs", [⟨"Deployment", "web"⟩]⟩],
        [⟨"ns1", "web", some [("app", "web"), (restartKey, formatRFC3339 0)]⟩], [], []⟩, 1,
       [ApiCall.getReplicaSet "ns1" "web-rs",
        ApiCall.getWorkload "Deployment" "ns1" "web",
        ApiCall.updateWorkload "Deployment" "ns1" "web"
          [("app", "web"), (restartKey, formatRFC3339 0)] 0]⟩ := by
  have h := ((claim_C1_resolver_single_update 0
      ⟨⟨["ns1"], [], [⟨"ns1", "web-rs", [⟨"Deployment", "web"⟩]⟩],
        [⟨"ns1", "web", some [("app", "web")]⟩], [], []⟩, 0, []⟩ "ns1").2
      "web-rs" "web" ⟨"ns1", "web-rs", [⟨"Deployment", "web"⟩]⟩
      ⟨"ns1", "web", some [("app", "web")]⟩ [] rfl rfl rfl).1
  rw [show (0 + 2 : Nat) = 2 from rfl] at h
  constructor
  · rw [h]
  · rw [h]
    decide

/-- C3: a ReplicaSet owner reference whose fetched ReplicaSet has no
owner references resolves successfully as a no-op: the only API call is
the ReplicaSet fetch, no workload is fetched, no update is issued, and
the cluster is left unchanged. -/
theorem claim_C3_unowned_replicaset (fuel : Nat) (s : SimState) (ns rsName : String)
    (rs : ReplicaSet)
    (hrs : findReplicaSet s.cluster ns rsName = some rs)
    (hro : rs.ownerReferences = []) :
    traverseOwners (fuel + 1) ns (OwnerReference.mk "ReplicaSet" rsName) s =
      (Except.ok (),
        { cluster := s.cluster
          clock := s.clock
          trace := s.trace ++ [ApiCall.getReplicaSet ns rsName] }) := by
  rw [traverseOwners]
  simp only [hrs, hro]
  rw [if_pos trivial]
  rfl

/-- Witness for C3 on a concrete cluster holding one unowned ReplicaSet. -/
theorem claim_C3_witness :
    traverseOwners 1 "ns1" (OwnerReference.mk "ReplicaSet" "lone-rs")
      ⟨⟨["ns1"], [], [⟨"ns1", "lone-rs", []⟩], [], [], []⟩, 0, []⟩ =
      (Except.ok (),
        ⟨⟨["ns1"], [], [⟨"ns1", "lone-rs", []⟩], [], [], []⟩, 0,
         [ApiCall.getReplicaSet "ns1" "lone-rs"]⟩) := by
  have h := claim_C3_unowned_replicaset 0
      ⟨⟨["ns1"], [], [⟨"ns1", "lone-rs", []⟩], [], [], []⟩, 0, []⟩
      "ns1" "lone-rs" ⟨"ns1", "lone-rs", []⟩ rfl rfl
  exact h

/-- C4: an owner reference of any unrecognized kind resolves
successfully with the state untouched: no fetch, no update, no object
mutated. -/
theorem claim_C4_unsupported_kind (fuel : Nat) (s : SimState) (ns : String)
    (ref : OwnerReference)
    (h1 : ref.kind ≠ "ReplicaSet") (h2 : ref.kind ≠ "Deployment")
    (h3 : ref.kind ≠ "DaemonSet") (h4 : ref.kind ≠ "StatefulSet") :
    traverseOwners (fuel + 1) ns ref s = (Except.ok (), s) := by
  rw [traverseOwners]
  rw [if_neg h1, if_neg h2, if_neg h3, if_neg h4]

/-- Witness for C4 at an owner reference of kind CronJob. -/
theorem claim_C4_witness :
    traverseOwners 1 "ns1" (OwnerReference.mk "CronJob" "nightly")
      ⟨⟨["ns1"], [], [], [], [], []⟩, 0, []⟩ =
      (Except.ok (), ⟨⟨["ns1"], [], [], [], [], []⟩, 0, []⟩) :=
  claim_C4_unsupported_kind 0 ⟨⟨["ns1"], [], [], [], [], []⟩, 0, []⟩ "ns1"
    (OwnerReference.mk "CronJob" "nightly")
    (by decide) (by decide) (by decide) (by decide)

/-- C9: two sidecar-marked pods of one namespace, owned through two
ReplicaSets by one Deployment, make sequential batch processing issue
exactly two update calls, both to that Deployment, and the restart
marker instant written by the second update is strictly later than the
first (the model clock advances on every `time.Now()` call). -/
theorem claim_C9_two_pods_two_updates (fuel : Nat) (s : SimState)
    (nsn dName rs1Name rs2Name : String) (p1 p2 : Pod) (rs1 rs2 : ReplicaSet)
    (d : WorkloadObj) (o1 o2 r1 r2 : List OwnerReference)
    (hpods : podsInNamespace s.cluster nsn = [p1, p2])
    (hns1 : p1.ns = nsn) (hns2 : p2.ns = nsn)
    (hm1 : hasIstioSidecar p1 = true) (hm2 : hasIstioSidecar p2 = true)
    (ho1 : p1.ownerReferences = OwnerReference.mk "ReplicaSet" rs1Name :: o1)
    (ho2 : p2.ownerReferences = OwnerReference.mk "ReplicaSet" rs2Name :: o2)
    (hrs1 : findReplicaSet s.cluster nsn rs1Name = some rs1)
    (hrs2 : findReplicaSet s.cluster nsn rs2Name = some rs2)
    (hro1 : rs1.ownerReferences = OwnerReference.mk "Deployment" dName :: r1)
    (hro2 : rs2.ownerReferences = OwnerReference.mk "Deployment" dName :: r2)
    (hd : findWorkload s.cluster "Deployment" nsn dName = some d) :
    (processPodsInNamespace (fuel + 2) nsn s).1 = 2
    ∧ List.filter isUpdateCall
        (((processPodsInNamespace (fuel + 2) nsn s).2.trace).drop s.trace.length) =
      [ApiCall.updateWorkload "Deployment" nsn dName
         ( addRestartAnnotation d.templateAnnotations s.clock) s.clock,
       ApiCall.updateWorkload "Deployment" nsn dName
         ( addRestartAnnotation
           (some ( addRestartAnnotation d.templateAnnotations s.clock)) (s.clock + 1))
         (s.clock + 1)]
    ∧ s.clock < s.clock + 1 := by
  have h1 : processPod (fuel + 2) p1 s =
      (Except.ok (),
        ⟨updateWorkloadColl s.cluster "Deployment" nsn dName
           ( addRestartAnnotation d.templateAnnotations s.clock), s.clock + 1,
         s.trace ++ [ApiCall.getReplicaSet nsn rs1Name,
           ApiCall.getWorkload "Deployment" nsn dName,
           ApiCall.updateWorkload "Deployment" nsn dName
             ( addRestartAnnotation d.templateAnnotations s.clock) s.clock]⟩) := by
    unfold processPod
    rw [ho1, hns1]
    exact traverseOwners_rs_to_deployment fuel s nsn rs1Name dName rs1 d r1 hrs1 hro1 hd
  have hrs2b : findReplicaSet
      (updateWorkloadColl s.cluster "Deployment" nsn dName
        ( addRestartAnnotation d.templateAnnotations s.clock)) nsn rs2Name = some rs2 :=
    (findReplicaSet_updateColl s.cluster "Deployment" nsn dName
      ( addRestartAnnotation d.templateAnnotations s.clock) nsn rs2Name).trans hrs2
  have hdb : findWorkload
      (updateWorkloadColl s.cluster "Deployment" nsn dName
        ( addRestartAnnotation d.templateAnnotations s.clock)) "Deployment" nsn dName =
      some { d with
             templateAnnotations :=
               some ( addRestartAnnotation d.templateAnnotations s.clock) } :=
    findWorkload_updateColl_deployment s.cluster nsn dName
      ( addRestartAnnotation d.templateAnnotations s.clock) d hd
  have h2 : processPod (fuel + 2) p2
      ⟨updateWorkloadColl s.cluster "Deployment" nsn dName
         ( addRestartAnnotation d.templateAnnotations s.clock), s.clock + 1,
       s.trace ++ [ApiCall.getReplicaSet nsn rs1Name,
         ApiCall.getWorkload "Deployment" nsn dName,
         ApiCall.updateWorkload "Deployment" nsn dName
           ( addRestartAnnotation d.templateAnnotations s.clock) s.clock]⟩ =
      (Except.ok (),
        ⟨updateWorkloadColl
           (updateWorkloadColl s.cluster "Deployment" nsn dName
             ( addRestartAnnotation d.templateAnnotations s.clock)) "Deployment" nsn dName
           ( addRestartAnnotation
             (some ( addRestartAnnotation d.templateAnnotations s.clock)) (s.clock + 1)),
         s.clock + 1 + 1,
         (s.trace ++ [ApiCall.getReplicaSet nsn rs1Name,
           ApiCall.getWorkload "Deployment" nsn dName,
           ApiCall.updateWorkload "Deployment" nsn dName
             ( addRestartAnnotation d.templateAnnotations s.clock) s.clock]) ++
          [ApiCall.getReplicaSet nsn rs2Name,
           ApiCall.getWorkload "Deployment" nsn dName,
           ApiCall.updateWorkload "Deployment" nsn dName
             ( addRestartAnnotation
               (some ( addRestartAnnotation d.templateAnnotations s.clock)) (s.clock + 1))
             (s.clock + 1)]⟩) := by
    unfold processPod
    rw [ho2, hns2]
    exact traverseOwners_rs_to_deployment fuel _ nsn rs2Name dName rs2
      { d with
        templateAnnotations :=
          some ( addRestartAnnotation d.templateAnnotations s.clock) } r2 hrs2b hro2 hdb
  have hrun : processPodsInNamespace (fuel + 2) nsn s =
      (2,
        ⟨updateWorkloadColl
           (updateWorkloadColl s.cluster "Deployment" nsn dName
             ( addRestartAnnotation d.templateAnnotations s.clock)) "Deployment" nsn dName
           ( addRestartAnnotation
             (some ( addRestartAnnotation d.templateAnnotations s.clock)) (s.clock + 1)),
         s.clock + 1 + 1,
         (s.trace ++ [ApiCall.getReplicaSet nsn rs1Name,
           ApiCall.getWorkload "Deployment" nsn dName,
           ApiCall.updateWorkload "Deployment" nsn dName
             ( addRestartAnnotation d.templateAnnotations s.clock) s.clock]) ++
          [ApiCall.getReplicaSet nsn rs2Name,
           ApiCall.getWorkload "Deployment" nsn dName,
           ApiCall.updateWorkload "Deployment" nsn dName
             ( addRestartAnnotation
               (some ( addRestartAnnotation d.templateAnnotations s.clock)) (s.clock + 1))
             (s.clock + 1)]⟩) := by
    unfold processPodsInNamespace
    rw [hpods]
    simp [processPodLoop, hm1, hm2, h1, h2]
  have htrace : (processPodsInNamespace (fuel + 2) nsn s).2.trace =
      (s.trace ++ [ApiCall.getReplicaSet nsn rs1Name,
        ApiCall.getWorkload "Deployment" nsn dName,
        ApiCall.updateWorkload "Deployment" nsn dName
          ( addRestartAnnotation d.templateAnnotations s.clock) s.clock]) ++
       [ApiCall.getReplicaSet nsn rs2Name,
        ApiCall.getWorkload "Deployment" nsn dName,
        ApiCall.updateWorkload "Deployment" nsn dName
          ( addRestartAnnotation
            (some ( addRestartAnnotation d.templateAnnotations s.clock)) (s.clock + 1))
          (s.clock + 1)] := by
    rw [hrun]
  refine ⟨by rw [hrun], ?_, Nat.lt_succ_self _⟩
  rw [htrace, List.append_assoc, List.drop_left]
  rfl

/-- C10: a sidecar-marked pod with an empty owner-reference list is
processed with no fetch and no update (the state is untouched), returns
success, and still increments the success counter of the batch loop. -/
theorem claim_C10_ownerless_pod (fuel count : Nat) (s : SimState) (pod : Pod)
    (rest : List Pod)
    (hm : hasIstioSidecar pod = true) (ho : pod.ownerReferences = []) :
    processPod fuel pod s = (Except.ok (), s)
    ∧ processPodLoop fuel (pod :: rest) count s =
        processPodLoop fuel rest (count + 1) s := by
  have hp : processPod fuel pod s = (Except.ok (), s) := by
    unfold processPod
    rw [ho]
  refine ⟨hp, ?_⟩
  rw [processPodLoop, if_pos hm, hp]

/-- Witness for C9: two concrete sidecar-marked pods owned through two
ReplicaSets by the Deployment web in namespace ns1. -/
theorem claim_C9_witness :
    (processPodsInNamespace 2 "ns1"
      ⟨⟨["ns1"],
        [⟨"ns1", "pod-a", [⟨"istio-init"⟩], [⟨"ReplicaSet", "web-1"⟩]⟩,
         ⟨"ns1", "pod-b", [⟨"istio-validation"⟩], [⟨"ReplicaSet", "web-2"⟩]⟩],
        [⟨"ns1", "web-1", [⟨"Deployment", "web"⟩]⟩,
         ⟨"ns1", "web-2", [⟨"Deployment", "web"⟩]⟩],
        [⟨"ns1", "web", none⟩], [], []⟩, 0, []⟩).1 = 2
    ∧ List.filter isUpdateCall
        (((processPodsInNamespace 2 "ns1"
          ⟨⟨["ns1"],
            [⟨"ns1", "pod-a", [⟨"istio-init"⟩], [⟨"ReplicaSet", "web-1"⟩]⟩,
             ⟨"ns1", "pod-b", [⟨"istio-validation"⟩], [⟨"ReplicaSet", "web-2"⟩]⟩],
            [⟨"ns1", "web-1", [⟨"Deployment", "web"⟩]⟩,
             ⟨"ns1", "web-2", [⟨"Deployment", "web"⟩]⟩],
            [⟨"ns1", "web", none⟩], [], []⟩, 0, []⟩).2.trace).drop 0) =
      [ApiCall.updateWorkload "Deployment" "ns1" "web" ( addRestartAnnotation none 0) 0,
       ApiCall.updateWorkload "Deployment" "ns1" "web"
         ( addRestartAnnotation (some ( addRestartAnnotation none 0)) 1) 1]
    ∧ (0 : Nat) < 1 := by
  exact claim_C9_two_pods_two_updates 0
    ⟨⟨["ns1"],
      [⟨"ns1", "pod-a", [⟨"istio-init"⟩], [⟨"ReplicaSet", "web-1"⟩]⟩,
       ⟨"ns1", "pod-b", [⟨"istio-validation"⟩], [⟨"ReplicaSet", "web-2"⟩]⟩],
      [⟨"ns1", "web-1", [⟨"Deployment", "web"⟩]⟩,
       ⟨"ns1", "web-2", [⟨"Deployment", "web"⟩]⟩],
      [⟨"ns1", "web", none⟩], [], []⟩, 0, []⟩
    "ns1" "web" "web-1" "web-2"
    ⟨"ns1", "pod-a", [⟨"istio-init"⟩], [⟨"ReplicaSet", "web-1"⟩]⟩
    ⟨"ns1", "pod-b", [⟨"istio-validation"⟩], [⟨"ReplicaSet", "web-2"⟩]⟩
    ⟨"ns1", "web-1", [⟨"Deployment", "web"⟩]⟩
    ⟨"ns1", "web-2", [⟨"Deployment", "web"⟩]⟩
    ⟨"ns1", "web", none⟩ [] [] [] []
    (by decide) rfl rfl (by decide) (by decide) rfl rfl
    (by decide) (by decide) rfl rfl (by decide)

/-- Witness for C10: a concrete sidecar-marked pod with no owner
references on an otherwise empty cluster. -/
theorem claim_C10_witness :
    processPod 1 ⟨"ns1", "solo", [⟨"istio-init"⟩], []⟩
      ⟨⟨["ns1"], [], [], [], [], []⟩, 0, []⟩ =
      (Except.ok (), ⟨⟨["ns1"], [], [], [], [], []⟩, 0, []⟩)
    ∧ processPodLoop 1 [⟨"ns1", "solo", [⟨"istio-init"⟩], []⟩] 0
        ⟨⟨["ns1"], [], [], [], [], []⟩, 0, []⟩ =
      processPodLoop 1 [] 1 ⟨⟨["ns1"], [], [], [], [], []⟩, 0, []⟩ := by
  exact claim_C10_ownerless_pod 1 0 ⟨⟨["ns1"], [], [], [], [], []⟩, 0, []⟩
    ⟨"ns1", "solo", [⟨"istio-init"⟩], []⟩ [] (by decide) rfl
